import Mathlib

/-!
Verification of the sampling-and-report policy of the sensebender sketches.

The embedding follows the three Arduino sources:
* `src/unnamed/part_001` — the Sensebender Micro sketch (temperature,
  humidity, door, motion, battery);
* `src/unnamed/part_000` — the plain motion/door sketch;
* `src/ProMini3v/ProMini3v.ino` — the ProMini variant with the
  `SEND_ONLY_CHANGES` compile-time flag (commented out in the shipped file).

C++ `float` values are modelled as `Option ℚ`: `none` stands for NaN and
`some q` for a finite value taken exactly (IEEE rounding and infinities are
not modelled; no verified property depends on them).  The external SI7021
driver returns the raw readings; following the error taxonomy of the spec
(a sensor read may yield an undefined/NaN value) the reading fields are
modelled as possibly-NaN floats.
-/

/-- Rational addition written through `mkRat` so that closed terms reduce in
the kernel (the library addition on `ℚ` is irreducible). -/
def qadd (a b : ℚ) : ℚ := mkRat (a.num * b.den + b.num * a.den) (a.den * b.den)

/-- Rational subtraction written through `mkRat`; see `qadd`. -/
def qsub (a b : ℚ) : ℚ := mkRat (a.num * b.den - b.num * a.den) (a.den * b.den)

/-- Division of a rational by a natural number written through `mkRat`. -/
def qdivN (a : ℚ) (n : ℕ) : ℚ := mkRat a.num (a.den * n)

/-- Absolute value of a rational written on the numerator. -/
def qabs (a : ℚ) : ℚ := if a.num < 0 then mkRat (-a.num) a.den else a

/-- A C++ `float` value: `none` is NaN, `some q` a finite value. -/
abbrev FloatV := Option ℚ

namespace FloatV

/-- Promotion of a C++ integer to `float`. -/
def ofInt (n : ℤ) : FloatV := some (n : ℚ)

/-- `float` subtraction; NaN propagates. -/
def sub : FloatV → FloatV → FloatV
  | some a, some b => some (qsub a b)
  | _, _ => none

/-- `float` addition; NaN propagates. -/
def add : FloatV → FloatV → FloatV
  | some a, some b => some (qadd a b)
  | _, _ => none

/-- The Arduino `abs` macro `((x)>0?(x):-(x))`; on NaN it yields NaN. -/
def fabs : FloatV → FloatV
  | some a => some (qabs a)
  | none => none

/-- Division by a nonnegative integer constant (`/ 100.0`, `/ _cnt`). -/
def divNat : FloatV → ℕ → FloatV
  | some a, n => some (qdivN a n)
  | none, _ => none

/-- The C++ comparison `x > c`: `false` whenever `x` is NaN. -/
def gtc (x : FloatV) (c : ℚ) : Bool :=
  match x with
  | some a => decide (c < a)
  | none => false

/-- The C++ `isnan` test. -/
def isnanB (x : FloatV) : Bool := x.isNone

end FloatV

/-- Truncation of a `float` to a C++ `int` (toward zero, as the C++ conversion
`int humidity = data.humidityPercent` behaves on finite values).  Converting
NaN is undefined behaviour in C++; it is mapped to 0 here and every theorem
that depends on the converted value assumes a finite input. -/
def truncF : FloatV → ℤ
  | none => 0
  | some q => Int.tdiv q.num (q.den : ℤ)

/-- The `RunningAverage` object `raHum` with window size `AVERAGES = 2`:
ring buffer of two slots, insertion index, fill count and incrementally
maintained sum, exactly as in the vendor library used by the sketch. -/
structure RA where
  ar0 : FloatV
  ar1 : FloatV
  idx : Bool
  cnt : ℕ
  sum : FloatV

namespace RA

/-- `RunningAverage::clear` (also the state after construction): counters to
zero and both slots zeroed. -/
def clear : RA := ⟨some 0, some 0, false, 0, some 0⟩

/-- `RunningAverage::addValue(f)`: `_sum -= _ar[_idx]; _ar[_idx] = f;
_sum += f; _idx = (_idx+1) % 2; if (_cnt < 2) _cnt++;`. -/
def addValue (r : RA) (f : FloatV) : RA :=
  { ar0 := if r.idx then r.ar0 else f
    ar1 := if r.idx then f else r.ar1
    idx := !r.idx
    cnt := if r.cnt < 2 then r.cnt + 1 else r.cnt
    sum := FloatV.add (FloatV.sub r.sum (if r.idx then r.ar1 else r.ar0)) f }

/-- `RunningAverage::getAverage`: NaN when the buffer is empty, otherwise
`_sum / _cnt`. -/
def getAverage (r : RA) : FloatV :=
  if r.cnt = 0 then none else FloatV.divNat r.sum r.cnt

end RA

/-- The reading struct returned by `humiditySensor.getHumidityAndTemperature()`.
The driver is external to the repository; per the error taxonomy of the spec a
reading may be undefined/NaN, so the fields are possibly-NaN floats. -/
structure si7021_env where
  celsiusHundredths : FloatV
  fahrenheitHundredths : FloatV
  humidityPercent : FloatV

/-- The mutable globals of `src/unnamed/part_001` that the policy reads and
writes across wake cycles. -/
structure NodeState where
  measureCount : ℤ
  sendBattery : ℤ
  lastTemperature : FloatV
  lastHumidity : ℤ
  lastBattery : ℤ
  old_door_val : Bool
  old_motion_val : Bool
  raHum : RA

/-- Initial values of the globals (`part_001` lines 135-151): counters zero,
analog last-transmitted values at the -100 sentinel, digital previous values
`false`, running average cleared. -/
def initState : NodeState :=
  { measureCount := 0
    sendBattery := 0
    lastTemperature := some (-100)
    lastHumidity := -100
    lastBattery := -100
    old_door_val := false
    old_motion_val := false
    raHum := RA.clear }

/-- `FORCE_TRANSMIT_INTERVAL` (`part_001` line 101). -/
def FORCE_TRANSMIT_INTERVAL : ℤ := 30

/-- `HUMI_TRANSMIT_THRESHOLD` = `TEMP_TRANSMIT_THRESHOLD` = 0.5 (`part_001`
lines 108-109), written through `mkRat` so closed terms reduce. -/
def TRANSMIT_THRESHOLD : ℚ := mkRat 1 2

/-- The new temperature of a cycle:
`(isMetric ? data.celsiusHundredths : data.fahrenheitHundredths) / 100.0`. -/
def tempNew (metric : Bool) (d : si7021_env) : FloatV :=
  FloatV.divNat (if metric then d.celsiusHundredths else d.fahrenheitHundredths) 100

/-- The running average after the `raHum.addValue(data.humidityPercent)` of a cycle. -/
def raNext (s : NodeState) (d : si7021_env) : RA :=
  s.raHum.addValue d.humidityPercent

/-- `diffTemp = abs(lastTemperature - newTemperature)` (`part_001` line 327). -/
def tempDiffOf (metric : Bool) (s : NodeState) (d : si7021_env) : FloatV :=
  FloatV.fabs (FloatV.sub s.lastTemperature (tempNew metric d))

/-- `diffHum = abs(lastHumidity - raHum.getAverage())` (`part_001` line 328). -/
def humDiffOf (s : NodeState) (d : si7021_env) : FloatV :=
  FloatV.fabs (FloatV.sub (FloatV.ofInt s.lastHumidity) (raNext s d).getAverage)

/-- The sequential transmit-flag updates of `sendTempHumidityMeasurements`
(`part_001` lines 321, 333-335): `tx = force; if (isnan(diffHum)) tx = true;
if (diffTemp > 0.5) tx = true; if (diffHum > 0.5) tx = true;`. -/
def txOf (metric force : Bool) (s : NodeState) (d : si7021_env) : Bool :=
  let tx1 := if FloatV.isnanB (humDiffOf s d) then true else force
  let tx2 := if FloatV.gtc (tempDiffOf metric s d) TRANSMIT_THRESHOLD then true else tx1
  if FloatV.gtc (humDiffOf s d) TRANSMIT_THRESHOLD then true else tx2

/-- Result of one call to `sendBattLevel`: updated state and whether a battery
report went out. -/
def sendBattLevel (force : Bool) (s : NodeState) (vcc : ℤ) : NodeState × Bool :=
  let lastB := if force then -1 else s.lastBattery
  if vcc ≠ lastB then ({ s with lastBattery := vcc }, true)
  else ({ s with lastBattery := lastB }, false)

/-- Result of one call to `sendTempHumidityMeasurements`: updated state,
whether the temperature/humidity pair was transmitted, the transmitted values
and whether a battery report was nested inside the transmit branch. -/
structure THResult where
  state : NodeState
  txOccurred : Bool
  sentTemp : Option FloatV
  sentHum : Option ℤ
  battSent : Bool

/-- `sendTempHumidityMeasurements(force)` (`part_001` lines 319-355): add the
raw humidity sample to the running average, decide `tx` from force, the NaN
check and the two 0.5 thresholds; on `tx` reset `measureCount`, send both the
temperature and the integer humidity sample, store them as the last
transmitted values, and when `sendBattery > 60` also send the battery level
(forced) and reset `sendBattery`. -/
def sendTempHumidityMeasurements (metric force : Bool) (s : NodeState)
    (d : si7021_env) (vcc : ℤ) : THResult :=
  if txOf metric force s d then
    let s1 : NodeState :=
      { s with raHum := raNext s d
               measureCount := 0
               lastTemperature := tempNew metric d
               lastHumidity := truncF d.humidityPercent }
    if 60 < s1.sendBattery then
      let p := sendBattLevel true s1 vcc
      { state := { p.1 with sendBattery := 0 }
        txOccurred := true
        sentTemp := some (tempNew metric d)
        sentHum := some (truncF d.humidityPercent)
        battSent := p.2 }
    else
      { state := s1
        txOccurred := true
        sentTemp := some (tempNew metric d)
        sentHum := some (truncF d.humidityPercent)
        battSent := false }
  else
    { state := { s with raHum := raNext s d }
      txOccurred := false
      sentTemp := none
      sentHum := none
      battSent := false }

/-- The per-cycle inputs of the `loop` of `part_001`: the sensor reading, the two
digital pin reads and the ADC voltage `readVcc()` would return. -/
structure CycleInput where
  data : si7021_env
  door : Bool
  motion : Bool
  vcc : ℤ

/-- Observable outcome of one `loop` iteration of `part_001`. -/
structure CycleOutput where
  state : NodeState
  forced : Bool
  txTH : Bool
  sentTemp : Option FloatV
  sentHum : Option ℤ
  battSent : Bool
  doorSent : Bool
  motionSent : Bool

/-- The unconditional counter increments at the top of the `loop` of `part_001`
(lines 243-244): `measureCount ++; sendBattery ++;`. -/
def incCounters (s : NodeState) : NodeState :=
  { s with measureCount := s.measureCount + 1, sendBattery := s.sendBattery + 1 }

/-- `forceTransmit` of a cycle (`part_001` line 256): the incremented
`measureCount` exceeds `FORCE_TRANSMIT_INTERVAL`. -/
def forceOf (s : NodeState) : Bool :=
  decide (FORCE_TRANSMIT_INTERVAL < (incCounters s).measureCount)

/-- The state right before `sendTempHumidityMeasurements` is called from
`loop`: counters incremented and, on a forced cycle, `measureCount` reset
(`part_001` lines 256-259). -/
def preTH (s : NodeState) : NodeState :=
  if forceOf s then { incCounters s with measureCount := 0 } else incCounters s

/-- The door/motion part of the `loop` of `part_001` (lines 268-289): report each
digital channel exactly when the read value differs from the stored previous
value, updating the stored value on report.  Returns the updated state, the
door-report flag and the motion-report flag. -/
def digitalStep (s : NodeState) (door motion : Bool) : NodeState × Bool × Bool :=
  let doorSent : Bool := door != s.old_door_val
  let s2 : NodeState := if doorSent then { s with old_door_val := door } else s
  let motionSent : Bool := motion != s2.old_motion_val
  let s3 : NodeState := if motionSent then { s2 with old_motion_val := motion } else s2
  (s3, doorSent, motionSent)

/-- One iteration of the `loop` of `part_001` (lines 239-308): increment
`measureCount` and `sendBattery`; when `measureCount > FORCE_TRANSMIT_INTERVAL`
set `forceTransmit` and reset `measureCount`; run
`sendTempHumidityMeasurements(forceTransmit)`; then the door/motion reports.
(The battery block inside `loop` is commented out in the source; battery
reporting happens only inside `sendTempHumidityMeasurements`.) -/
def loopStep (metric : Bool) (s : NodeState) (inp : CycleInput) : CycleOutput :=
  let r := sendTempHumidityMeasurements metric (forceOf s) (preTH s) inp.data inp.vcc
  let dg := digitalStep r.state inp.door inp.motion
  { state := dg.1
    forced := forceOf s
    txTH := r.txOccurred
    sentTemp := r.sentTemp
    sentHum := r.sentHum
    battSent := r.battSent
    doorSent := dg.2.1
    motionSent := dg.2.2 }

/-- The state after the `setup` of `part_001` (lines 191-193): running average
cleared (already so in `initState`), one `sendTempHumidityMeasurements(false)`
and one `sendBattLevel(false)`. -/
def setupState (metric : Bool) (d : si7021_env) (vcc : ℤ) : NodeState :=
  (sendBattLevel false (sendTempHumidityMeasurements metric false initState d vcc).state vcc).1

/-- Run of consecutive `loop` iterations, collecting the outcome of each cycle. -/
def runOutputs (metric : Bool) : NodeState → List CycleInput → List CycleOutput
  | _, [] => []
  | s, i :: is =>
      let o := loopStep metric s i
      o :: runOutputs metric o.state is

/-- The previous-value globals of the motion/door sketches. -/
structure MotionState where
  door_prev : Bool
  motion_prev : Bool

/-- Observable outcome of one `loop` iteration of a motion/door sketch. -/
structure MotionOutput where
  state : MotionState
  doorSent : Bool
  motionSent : Bool

/-- One iteration of the `loop` of `src/unnamed/part_000` (lines 75-96): read the
two pins, send each channel exactly when it differs from the stored previous
value, updating the stored value on send. -/
def part000_loop (s : MotionState) (door motion : Bool) : MotionOutput :=
  let doorSent : Bool := door != s.door_prev
  let s1 : MotionState := if doorSent then { s with door_prev := door } else s
  let motionSent : Bool := motion != s1.motion_prev
  let s2 : MotionState := if motionSent then { s1 with motion_prev := motion } else s1
  { state := s2, doorSent := doorSent, motionSent := motionSent }

/-- The `SEND_ONLY_CHANGES` compile-time flag of `src/ProMini3v/ProMini3v.ino`:
line 48 leaves the `#define` commented out, so the flag is off in the shipped
file. -/
def SEND_ONLY_CHANGES : Bool := false

/-- One iteration of the `loop` of `src/ProMini3v/ProMini3v.ino` (lines 81-107),
parameterized on the `SEND_ONLY_CHANGES` preprocessor flag: with the flag the
sends are guarded by change detection as in `part_000`; without it both
channels are sent unconditionally every cycle and no previous value is kept. -/
def proMini3vLoop (sendOnlyChanges : Bool) (s : MotionState) (door motion : Bool) :
    MotionOutput :=
  if sendOnlyChanges then part000_loop s door motion
  else { state := s, doorSent := true, motionSent := true }

/-- Terminal behaviour of `testMode` (`part_001` lines 497-515): on full
success an infinite loop toggling the LED every 200 ms; on failure an infinite
loop with an empty body, leaving the LED steady at the HIGH level set on entry
to `testMode`. -/
inductive TestOutcome where
  | blinkOkForever
  | haltLedSteadyOn
deriving DecidableEq

/-- `testMode` (`part_001` lines 424-515): count the passing peripheral tests
(SI7021 begin, flash initialize, and SHA204 which needs both the wakeup and
the serial-number read to succeed); with all 3 passing enter the blinking OK
loop, otherwise enter the empty failure loop.  Both loops never return. -/
def testModeRun (si7021ok flashOk shaWakeOk shaSerialOk : Bool) : TestOutcome :=
  let tests1 : ℕ := if si7021ok then 1 else 0
  let tests2 : ℕ := if flashOk then tests1 + 1 else tests1
  let tests3 : ℕ := if shaWakeOk && shaSerialOk then tests2 + 1 else tests2
  if tests3 = 3 then TestOutcome.blinkOkForever else TestOutcome.haltLedSteadyOn

/-! Concrete fixtures used by the counterexamples and witnesses. -/

/-- A nominal sensor reading: 20.00 °C (68.00 °F), humidity 50 %. -/
def sampleData : si7021_env := ⟨some 2000, some 6800, some 50⟩

/-- A loop input carrying the nominal reading, both digital pins low and a
3000 mV supply measurement. -/
def sampleInput : CycleInput := ⟨sampleData, false, false, 3000⟩

/-- A mid-run node state: last transmitted 20 °C and 50 %, the running
average holding two 50 % samples, counters in mid-interval. -/
def midState : NodeState :=
  { measureCount := 5
    sendBattery := 5
    lastTemperature := some 20
    lastHumidity := 50
    lastBattery := 3000
    old_door_val := false
    old_motion_val := false
    raHum := ⟨some 50, some 50, false, 2, some 100⟩ }

/-- A reading 5 °C hotter than the last transmitted temperature of
`midState`, humidity unchanged at 50 %. -/
def hotData : si7021_env := ⟨some 2500, some 7700, some 50⟩

/-- A reading whose temperature equals the -100 sentinel and whose raw
humidity equals the -100 humidity sentinel. -/
def sentinelData : si7021_env := ⟨some (-10000), some (-14800), some (-100)⟩

/-- A reading with an undefined (NaN) temperature and a stable 50 % humidity. -/
def nanTempData : si7021_env := ⟨none, none, some 50⟩

/-- A reading with an undefined (NaN) raw humidity sample and a stable
20.00 °C temperature. -/
def nanHumData : si7021_env := ⟨some 2000, some 6800, none⟩

/-- A reading with a fractional raw humidity sample of 60.4 %. -/
def fracHumData : si7021_env := ⟨some 2000, some 6800, some (mkRat 302 5)⟩

/-- A node state one cycle away from a forced transmission, with the battery
counter about to pass 60. -/
def battState : NodeState := { midState with measureCount := 31, sendBattery := 60 }

/-! Bridge lemmas from the `mkRat`-based arithmetic to the library operations
on `ℚ`, and structural facts about the policy functions. -/

theorem rat_mul_den (a : ℚ) : a * (a.den : ℚ) = a.num := by
  nth_rewrite 1 [← Rat.num_div_den a]
  rw [div_mul_cancel₀]
  positivity

theorem qadd_eq (a b : ℚ) : qadd a b = a + b := by
  rw [qadd, Rat.mkRat_eq_divInt, Rat.divInt_eq_div]
  push_cast
  rw [div_eq_iff (by positivity)]
  calc (a.num : ℚ) * b.den + b.num * a.den
      = (a * a.den) * b.den + (b * b.den) * a.den := by rw [rat_mul_den, rat_mul_den]
    _ = (a + b) * (a.den * b.den) := by ring

theorem qsub_eq (a b : ℚ) : qsub a b = a - b := by
  rw [qsub, Rat.mkRat_eq_divInt, Rat.divInt_eq_div]
  push_cast
  rw [div_eq_iff (by positivity)]
  calc (a.num : ℚ) * b.den - b.num * a.den
      = (a * a.den) * b.den - (b * b.den) * a.den := by rw [rat_mul_den, rat_mul_den]
    _ = (a - b) * (a.den * b.den) := by ring

theorem qdivN_eq (a : ℚ) (n : ℕ) : qdivN a n = a / n := by
  rcases Nat.eq_zero_or_pos n with h | h
  · subst h
    simp [qdivN]
  · rw [qdivN, Rat.mkRat_eq_divInt, Rat.divInt_eq_div]
    push_cast
    rw [div_eq_div_iff (by positivity) (by positivity)]
    calc (a.num : ℚ) * n = (a * a.den) * n := by rw [rat_mul_den]
      _ = a * (a.den * n) := by ring

theorem qabs_eq (a : ℚ) : qabs a = |a| := by
  rw [qabs]
  split
  · rename_i h
    rw [Rat.mkRat_eq_divInt, Rat.divInt_eq_div]
    push_cast
    rw [neg_div, Rat.num_div_den, abs_of_neg]
    exact lt_of_not_ge fun hge => absurd (Rat.num_nonneg.mpr hge) (by omega)
  · rename_i h
    rw [abs_of_nonneg]
    exact Rat.num_nonneg.mp (by omega)

theorem thr_eq : TRANSMIT_THRESHOLD = 1/2 := by
  rw [TRANSMIT_THRESHOLD, Rat.mkRat_eq_divInt, Rat.divInt_eq_div]
  norm_num

theorem txOf_eq_or (metric force : Bool) (s : NodeState) (d : si7021_env) :
    txOf metric force s d =
      (force || FloatV.isnanB (humDiffOf s d) ||
       FloatV.gtc (tempDiffOf metric s d) TRANSMIT_THRESHOLD ||
       FloatV.gtc (humDiffOf s d) TRANSMIT_THRESHOLD) := by
  unfold txOf
  cases h1 : FloatV.isnanB (humDiffOf s d) <;>
    cases h2 : FloatV.gtc (tempDiffOf metric s d) TRANSMIT_THRESHOLD <;>
      cases h3 : FloatV.gtc (humDiffOf s d) TRANSMIT_THRESHOLD <;>
        cases force <;> simp [h1, h2, h3]

theorem sendTH_tx (metric force : Bool) (s : NodeState) (d : si7021_env) (vcc : ℤ) :
    (sendTempHumidityMeasurements metric force s d vcc).txOccurred = txOf metric force s d := by
  unfold sendTempHumidityMeasurements
  repeat' split <;> simp_all

theorem sendTH_digital (metric force : Bool) (s : NodeState) (d : si7021_env) (vcc : ℤ) :
    (sendTempHumidityMeasurements metric force s d vcc).state.old_door_val = s.old_door_val ∧
    (sendTempHumidityMeasurements metric force s d vcc).state.old_motion_val = s.old_motion_val := by
  unfold sendTempHumidityMeasurements sendBattLevel
  repeat' split <;> simp_all

theorem sendTH_measureCount (metric force : Bool) (s : NodeState) (d : si7021_env) (vcc : ℤ) :
    (sendTempHumidityMeasurements metric force s d vcc).state.measureCount =
      (if txOf metric force s d then 0 else s.measureCount) := by
  unfold sendTempHumidityMeasurements sendBattLevel
  repeat' split <;> simp_all

theorem sendTH_sent (metric force : Bool) (s : NodeState) (d : si7021_env) (vcc : ℤ) :
    (sendTempHumidityMeasurements metric force s d vcc).sentTemp.isSome =
      (sendTempHumidityMeasurements metric force s d vcc).txOccurred ∧
    (sendTempHumidityMeasurements metric force s d vcc).sentHum.isSome =
      (sendTempHumidityMeasurements metric force s d vcc).txOccurred := by
  unfold sendTempHumidityMeasurements
  repeat' split <;> simp_all

theorem sendTH_batt (metric force : Bool) (s : NodeState) (d : si7021_env) (vcc : ℤ) :
    ((sendTempHumidityMeasurements metric force s d vcc).battSent = true →
      (60 < s.sendBattery ∧
       (sendTempHumidityMeasurements metric force s d vcc).txOccurred = true ∧
       (sendTempHumidityMeasurements metric force s d vcc).state.sendBattery = 0)) ∧
    ((sendTempHumidityMeasurements metric force s d vcc).state.sendBattery = s.sendBattery ∨
     (60 < s.sendBattery ∧
      (sendTempHumidityMeasurements metric force s d vcc).state.sendBattery = 0)) := by
  unfold sendTempHumidityMeasurements sendBattLevel
  repeat' split <;> simp_all

theorem digitalStep_spec (s : NodeState) (door motion : Bool) :
    (digitalStep s door motion).2.1 = (door != s.old_door_val) ∧
    (digitalStep s door motion).2.2 = (motion != s.old_motion_val) ∧
    (digitalStep s door motion).1.old_door_val = door ∧
    (digitalStep s door motion).1.old_motion_val = motion := by
  unfold digitalStep
  cases hd : door <;> cases hd2 : s.old_door_val <;>
    cases hm : motion <;> cases hm2 : s.old_motion_val <;> simp_all

theorem digitalStep_counters (s : NodeState) (door motion : Bool) :
    (digitalStep s door motion).1.measureCount = s.measureCount ∧
    (digitalStep s door motion).1.sendBattery = s.sendBattery := by
  unfold digitalStep
  cases hd : door <;> cases hd2 : s.old_door_val <;>
    cases hm : motion <;> cases hm2 : s.old_motion_val <;> simp_all

/-- C1: the claim that every digital channel reports exactly on change fails
for `ProMini3v.ino` as shipped: with `SEND_ONLY_CHANGES` commented out, the
door and motion channels are reported on a cycle whose readings (`false`,
`false`) equal the previous values, so a report is sent although the value
did not change. -/
theorem C1_counterexample :
    (proMini3vLoop SEND_ONLY_CHANGES ⟨false, false⟩ false false).doorSent = true ∧
    (proMini3vLoop SEND_ONLY_CHANGES ⟨false, false⟩ false false).motionSent = true := by
  decide

/-- C1 (amended): in the Sensebender `loop` and in `part_000` a digital
channel is reported exactly when the newly read value differs from the stored
previous value, and afterwards the stored value equals the new reading; the
same holds for `ProMini3v` only when `SEND_ONLY_CHANGES` is defined, while in
the shipped configuration both channels are sent every cycle. -/
theorem C1_amended (metric : Bool) (s : NodeState) (inp : CycleInput)
    (ms : MotionState) (door motion : Bool) :
    ((loopStep metric s inp).doorSent = (inp.door != s.old_door_val) ∧
     (loopStep metric s inp).motionSent = (inp.motion != s.old_motion_val) ∧
     (loopStep metric s inp).state.old_door_val = inp.door ∧
     (loopStep metric s inp).state.old_motion_val = inp.motion) ∧
    ((part000_loop ms door motion).doorSent = (door != ms.door_prev) ∧
     (part000_loop ms door motion).motionSent = (motion != ms.motion_prev) ∧
     (part000_loop ms door motion).state.door_prev = door ∧
     (part000_loop ms door motion).state.motion_prev = motion) ∧
    (proMini3vLoop true ms door motion = part000_loop ms door motion) ∧
    ((proMini3vLoop SEND_ONLY_CHANGES ms door motion).doorSent = true ∧
     (proMini3vLoop SEND_ONLY_CHANGES ms door motion).motionSent = true) := by
  refine ⟨?_, ?_, ?_, ?_⟩
  · have hd := sendTH_digital metric (forceOf s) (preTH s) inp.data inp.vcc
    have hpre : (preTH s).old_door_val = s.old_door_val ∧
        (preTH s).old_motion_val = s.old_motion_val := by
      unfold preTH incCounters
      split <;> simp
    have hds := digitalStep_spec
      (sendTempHumidityMeasurements metric (forceOf s) (preTH s) inp.data inp.vcc).state
      inp.door inp.motion
    unfold loopStep
    simp only []
    refine ⟨?_, ?_, ?_, ?_⟩
    · rw [hds.1, hd.1, hpre.1]
    · rw [hds.2.1, hd.2, hpre.2]
    · exact hds.2.2.1
    · exact hds.2.2.2
  · unfold part000_loop
    cases hd : door <;> cases hd2 : ms.door_prev <;>
      cases hm : motion <;> cases hm2 : ms.motion_prev <;> simp_all
  · unfold proMini3vLoop
    simp
  · unfold proMini3vLoop SEND_ONLY_CHANGES
    simp

/-- C2: the claim that a prior sentinel value by itself forces a transmission
fails: in the initial state both last-transmitted values are the -100
sentinel, yet for a reading matching the sentinels (temperature -100.00,
raw humidity -100) no transmission occurs, because the code only compares
differences against the threshold and has no sentinel test. -/
theorem C2_counterexample :
    initState.lastTemperature = some (-100) ∧
    initState.lastHumidity = -100 ∧
    (sendTempHumidityMeasurements true false initState sentinelData 3000).txOccurred = false := by
  decide

/-- C2 (amended): the pair transmits exactly when the force flag is set, or
the humidity comparison is NaN, or one of the two absolute differences
exceeds the 0.5 threshold — the sentinel has no independent trigger — and on
transmission the last transmitted temperature and humidity are updated to the
new values, otherwise kept. -/
theorem C2_amended (metric force : Bool) (s : NodeState) (d : si7021_env) (vcc : ℤ) :
    ((sendTempHumidityMeasurements metric force s d vcc).txOccurred =
      (force || FloatV.isnanB (humDiffOf s d) ||
       FloatV.gtc (tempDiffOf metric s d) TRANSMIT_THRESHOLD ||
       FloatV.gtc (humDiffOf s d) TRANSMIT_THRESHOLD)) ∧
    ((sendTempHumidityMeasurements metric force s d vcc).state.lastTemperature =
      (if (sendTempHumidityMeasurements metric force s d vcc).txOccurred
       then tempNew metric d else s.lastTemperature)) ∧
    ((sendTempHumidityMeasurements metric force s d vcc).state.lastHumidity =
      (if (sendTempHumidityMeasurements metric force s d vcc).txOccurred
       then truncF d.humidityPercent else s.lastHumidity)) := by
  refine ⟨?_, ?_, ?_⟩
  · rw [sendTH_tx, txOf_eq_or]
  · rw [sendTH_tx]
    unfold sendTempHumidityMeasurements sendBattLevel
    repeat' split <;> simp_all
  · rw [sendTH_tx]
    unfold sendTempHumidityMeasurements sendBattLevel
    repeat' split <;> simp_all

/-- C3: the claim that `measureCount` resets only on force-triggered cycles
fails: from `midState` (count 5) a 5 °C jump triggers a threshold
transmission on a non-forced cycle and `measureCount` is reset to 0 there. -/
theorem C3_counterexample :
    midState.measureCount = 5 ∧
    (loopStep true midState ⟨hotData, false, false, 3000⟩).forced = false ∧
    (loopStep true midState ⟨hotData, false, false, 3000⟩).txTH = true ∧
    (loopStep true midState ⟨hotData, false, false, 3000⟩).state.measureCount = 0 := by
  decide

/-- C3 (amended): across one cycle `measureCount` becomes 0 exactly when a
temperature/humidity transmission occurs on that cycle (forced or
threshold/NaN triggered), and otherwise becomes its old value plus one. -/
theorem C3_amended (metric : Bool) (s : NodeState) (inp : CycleInput) :
    (loopStep metric s inp).state.measureCount =
      (if (loopStep metric s inp).txTH then 0 else s.measureCount + 1) := by
  unfold loopStep
  simp only []
  rw [(digitalStep_counters _ inp.door inp.motion).1, sendTH_measureCount]
  simp only [sendTH_tx]
  cases htx : txOf metric (forceOf s) (preTH s) inp.data
  · have hforce : forceOf s = false := by
      by_contra hf
      rw [txOf_eq_or] at htx
      simp [Bool.of_not_eq_false hf] at htx
    unfold preTH incCounters
    rw [hforce]
    simp
  · simp

/-- C4: the claim that a threshold trigger on one channel alone does not send
the other channel fails: from `midState` with `hotData` only the temperature
difference (5 > 0.5) triggers — the humidity difference is 0 and no force is
in effect — yet the humidity value 50 is transmitted together with the
temperature. -/
theorem C4_counterexample :
    FloatV.gtc (tempDiffOf true midState hotData) TRANSMIT_THRESHOLD = true ∧
    FloatV.gtc (humDiffOf midState hotData) TRANSMIT_THRESHOLD = false ∧
    FloatV.isnanB (humDiffOf midState hotData) = false ∧
    (sendTempHumidityMeasurements true false midState hotData 3000).sentTemp =
      some (some 25) ∧
    (sendTempHumidityMeasurements true false midState hotData 3000).sentHum = some 50 := by
  decide

/-- C4 (amended): temperature and humidity are always transmitted together —
one shared transmit decision gates both sends, so each of the two values is
sent exactly on the cycles where the pair transmits. -/
theorem C4_amended (metric force : Bool) (s : NodeState) (d : si7021_env) (vcc : ℤ) :
    (sendTempHumidityMeasurements metric force s d vcc).sentTemp.isSome =
      (sendTempHumidityMeasurements metric force s d vcc).txOccurred ∧
    (sendTempHumidityMeasurements metric force s d vcc).sentHum.isSome =
      (sendTempHumidityMeasurements metric force s d vcc).txOccurred :=
  sendTH_sent metric force s d vcc

/-- C5: the claim that 30 identical-reading cycles after the initial
transmission contain one forced transmission on cycle 30 fails: starting from
the post-setup state (initial reading transmitted, `measureCount = 0`), 30
cycles with the identical nominal reading produce zero transmissions — the
force condition `measureCount > 30` is first met on cycle 31. -/
theorem C5_counterexample :
    (sendTempHumidityMeasurements true false initState sampleData 3000).txOccurred = true ∧
    ((runOutputs true (setupState true sampleData 3000)
        (List.replicate 30 sampleInput)).map (fun o => o.txTH)).count true = 0 := by
  decide

set_option maxRecDepth 8000 in
/-- C5 (amended): from the post-setup state, 31 identical-reading cycles
contain exactly one temperature/humidity transmission, the forced one on
cycle 31, for 2 transmissions total counting the initial one from setup. -/
theorem C5_amended :
    (sendTempHumidityMeasurements true false initState sampleData 3000).txOccurred = true ∧
    ((runOutputs true (setupState true sampleData 3000)
        (List.replicate 31 sampleInput)).map (fun o => o.txTH)).count true = 1 ∧
    ((runOutputs true (setupState true sampleData 3000)
        (List.replicate 31 sampleInput)).map (fun o => o.txTH)).getLast? = some true ∧
    ((runOutputs true (setupState true sampleData 3000)
        (List.replicate 31 sampleInput)).map (fun o => o.forced)).getLast? = some true := by
  decide

/-- C6: the claim that a NaN analog reading always causes a transmission
fails for temperature: with a NaN temperature reading and stable humidity
(difference 0) on an unforced cycle, the comparison `diffTemp > 0.5` is false
for NaN, the humidity NaN check does not fire, and no transmission occurs. -/
theorem C6_counterexample :
    FloatV.isnanB (tempDiffOf true midState nanTempData) = true ∧
    FloatV.isnanB (humDiffOf midState nanTempData) = false ∧
    (sendTempHumidityMeasurements true false midState nanTempData 3000).txOccurred = false := by
  decide

/-- C6 (amended): only the humidity comparison is NaN-checked — whenever
`diffHum` is NaN the transmit decision is true and a transmission occurs,
regardless of threshold or force state; a NaN temperature comparison has no
such fail-open path (see the counterexample). -/
theorem C6_amended (metric force : Bool) (s : NodeState) (d : si7021_env) (vcc : ℤ)
    (h : FloatV.isnanB (humDiffOf s d) = true) :
    (sendTempHumidityMeasurements metric force s d vcc).txOccurred = true := by
  rw [sendTH_tx, txOf_eq_or, h]
  simp

/-- Witness for `C6_amended`: a NaN raw humidity sample poisons the running
average, `diffHum` is NaN, and the cycle transmits. -/
theorem C6_witness :
    (sendTempHumidityMeasurements true false midState nanHumData 3000).txOccurred = true :=
  C6_amended true false midState nanHumData 3000 (by decide)

/-- C9: on a self-test failure (here: SHA204 wakes but the serial-number read
fails, so only 2 of 3 tests pass) the program enters the permanent halt loop
whose body is empty — the LED stays steady on instead of blinking; the
rapidly-blinking pattern exists only on the all-tests-pass path. -/
theorem C9_testmode :
    testModeRun true true true false = TestOutcome.haltLedSteadyOn ∧
    testModeRun true true true true = TestOutcome.blinkOkForever := by
  decide

theorem loopStep_batt (metric : Bool) (s : NodeState) (inp : CycleInput) :
    ((loopStep metric s inp).battSent = true →
      (60 ≤ s.sendBattery ∧ (loopStep metric s inp).txTH = true ∧
       (loopStep metric s inp).state.sendBattery = 0)) ∧
    (loopStep metric s inp).state.sendBattery ≤ s.sendBattery + 1 := by
  have hpre : (preTH s).sendBattery = s.sendBattery + 1 := by
    unfold preTH incCounters
    split <;> simp
  have hb := sendTH_batt metric (forceOf s) (preTH s) inp.data inp.vcc
  have hdg := digitalStep_counters
    (sendTempHumidityMeasurements metric (forceOf s) (preTH s) inp.data inp.vcc).state
    inp.door inp.motion
  unfold loopStep
  simp only []
  constructor
  · intro hbs
    obtain ⟨h1, h2, h3⟩ := hb.1 hbs
    rw [hpre] at h1
    exact ⟨by omega, h2, by rw [hdg.2, h3]⟩
  · rcases hb.2 with h | ⟨hgt, h⟩
    · rw [hdg.2, h, hpre]
    · rw [hdg.2, h, hpre] at *
      omega

theorem runBatt_send_bound (metric : Bool) :
    ∀ (inputs : List CycleInput) (s : NodeState) (j : ℕ),
      ((runOutputs metric s inputs).map (fun o => o.battSent))[j]? = some true →
      (60 : ℤ) ≤ s.sendBattery + j := by
  intro inputs
  induction inputs with
  | nil =>
    intro s j h
    simp [runOutputs] at h
  | cons i is ih =>
    intro s j h
    cases j with
    | zero =>
      simp only [runOutputs, List.map_cons, List.getElem?_cons_zero, Option.some.injEq] at h
      have := (loopStep_batt metric s i).1 h
      simpa using this.1
    | succ j =>
      simp only [runOutputs, List.map_cons, List.getElem?_cons_succ] at h
      have hj := ih (loopStep metric s i).state j h
      have hc := (loopStep_batt metric s i).2
      push_cast
      push_cast at hj
      omega

/-- C7: battery reporting is gated by its own counter: a cycle reports the
battery only if `sendBattery` had reached 60 (so the incremented counter
exceeds 60) and only together with a temperature/humidity transmission of
that cycle, and after a battery report no battery report occurs within the
next 60 cycles, whatever the following inputs are. -/
theorem C7_battery_cadence (metric : Bool) (s : NodeState) (inp : CycleInput)
    (inputs : List CycleInput) (j : ℕ)
    (hb : (loopStep metric s inp).battSent = true) (hj : j < 60) :
    60 ≤ s.sendBattery ∧ (loopStep metric s inp).txTH = true ∧
    ((runOutputs metric (loopStep metric s inp).state inputs).map
      (fun o => o.battSent))[j]? ≠ some true := by
  obtain ⟨h1, h2, h0⟩ := (loopStep_batt metric s inp).1 hb
  refine ⟨h1, h2, fun hc => ?_⟩
  have hbound := runBatt_send_bound metric inputs (loopStep metric s inp).state j hc
  rw [h0] at hbound
  omega

/-- Witness for `C7_battery_cadence`: a concrete state one cycle short of the
force interval with `sendBattery = 60` reports the battery on the forced
cycle, and position 30 of the following 31-cycle run carries no battery
report. -/
theorem C7_witness :
    60 ≤ battState.sendBattery ∧ (loopStep true battState sampleInput).txTH = true ∧
    ((runOutputs true (loopStep true battState sampleInput).state
        (List.replicate 31 sampleInput)).map (fun o => o.battSent))[30]? ≠ some true :=
  C7_battery_cadence true battState sampleInput (List.replicate 31 sampleInput) 30
    (by decide) (by decide)

/-- C8: the claim that the first reading of every channel is transmitted
regardless of its value fails for the digital channels: the stored previous
door value initializes to `false` (an in-range value, not a sentinel), so a
first cycle whose door reading is `false` sends no door report even though
the analog pair does transmit. -/
theorem C8_counterexample :
    initState.old_door_val = false ∧
    (loopStep true initState sampleInput).doorSent = false ∧
    (loopStep true initState sampleInput).txTH = true := by
  decide

/-- C8 (amended): the analog last-transmitted values initialize to the
out-of-range -100 sentinels, so the first cycle with an in-range humidity
reading always transmits the temperature/humidity pair; the digital previous
values initialize to `false`, so the first door/motion reading is reported
exactly when it reads `true`. -/
theorem C8_amended (metric : Bool) (inp : CycleInput) (q : ℚ)
    (hq : inp.data.humidityPercent = some q) (h0 : 0 ≤ q) (h1 : q ≤ 100) :
    initState.lastTemperature = some (-100) ∧
    initState.lastHumidity = -100 ∧
    initState.lastBattery = -100 ∧
    initState.old_door_val = false ∧
    initState.old_motion_val = false ∧
    (loopStep metric initState inp).txTH = true ∧
    (loopStep metric initState inp).doorSent = inp.door ∧
    (loopStep metric initState inp).motionSent = inp.motion := by
  have hpre : preTH initState = incCounters initState := by
    norm_num [preTH, forceOf, incCounters, initState, FORCE_TRANSMIT_INTERVAL]
  have havg : (raNext (preTH initState) inp.data).getAverage = some q := by
    rw [hpre]
    simp [raNext, incCounters, initState, RA.clear, RA.addValue, RA.getAverage,
          FloatV.add, FloatV.sub, FloatV.divNat, hq, qsub_eq, qadd_eq, qdivN_eq]
  have hgt : FloatV.gtc (humDiffOf (preTH initState) inp.data) TRANSMIT_THRESHOLD = true := by
    have hlast : (preTH initState).lastHumidity = -100 := by rw [hpre]; rfl
    rw [humDiffOf, havg, hlast]
    show FloatV.gtc (FloatV.fabs (FloatV.sub (FloatV.ofInt (-100)) (some q))) _ = true
    simp only [FloatV.ofInt, FloatV.sub, FloatV.fabs, FloatV.gtc, qsub_eq, qabs_eq, thr_eq]
    rw [decide_eq_true_eq]
    have hneg : ((-100 : ℤ) : ℚ) - q = -(q + 100) := by push_cast; ring
    rw [hneg, abs_neg, abs_of_nonneg (by linarith)]
    linarith
  have htx : (loopStep metric initState inp).txTH = true := by
    unfold loopStep
    simp only []
    rw [sendTH_tx, txOf_eq_or, hgt]
    simp
  have hdoor := sendTH_digital metric (forceOf initState) (preTH initState) inp.data inp.vcc
  have hds := digitalStep_spec
    (sendTempHumidityMeasurements metric (forceOf initState) (preTH initState) inp.data inp.vcc).state
    inp.door inp.motion
  refine ⟨rfl, rfl, rfl, rfl, rfl, htx, ?_, ?_⟩
  · show (loopStep metric initState inp).doorSent = inp.door
    unfold loopStep
    simp only []
    rw [hds.1, hdoor.1, hpre]
    show (inp.door != initState.old_door_val) = inp.door
    cases inp.door <;> rfl
  · show (loopStep metric initState inp).motionSent = inp.motion
    unfold loopStep
    simp only []
    rw [hds.2.1, hdoor.2, hpre]
    show (inp.motion != initState.old_motion_val) = inp.motion
    cases inp.motion <;> rfl

/-- Witness for `C8_amended` at the nominal first reading (50 % humidity). -/
theorem C8_witness :
    initState.lastTemperature = some (-100) ∧
    initState.lastHumidity = -100 ∧
    initState.lastBattery = -100 ∧
    initState.old_door_val = false ∧
    initState.old_motion_val = false ∧
    (loopStep true initState sampleInput).txTH = true ∧
    (loopStep true initState sampleInput).doorSent = sampleInput.door ∧
    (loopStep true initState sampleInput).motionSent = sampleInput.motion :=
  C8_amended true sampleInput 50 rfl (by norm_num) (by norm_num)

theorem sendTH_humStored (metric force : Bool) (s : NodeState) (d : si7021_env) (vcc : ℤ)
    (htx : (sendTempHumidityMeasurements metric force s d vcc).txOccurred = true) :
    (sendTempHumidityMeasurements metric force s d vcc).sentHum =
      some (truncF d.humidityPercent) ∧
    (sendTempHumidityMeasurements metric force s d vcc).state.lastHumidity =
      truncF d.humidityPercent := by
  unfold sendTempHumidityMeasurements at *
  split at htx
  · unfold sendBattLevel
    repeat' split <;> simp_all
  · simp at htx

/-- C10: whenever the pair transmits, the humidity value sent and stored into
`lastHumidity` is the raw sample truncated to an integer, not the running
average used for the threshold comparison — and the two quantities can
differ, as the concrete cycle in the second conjunct shows. -/
theorem C10_humidity_stored :
    (∀ (metric force : Bool) (s : NodeState) (d : si7021_env) (vcc : ℤ) (q : ℚ),
        d.humidityPercent = some q →
        (sendTempHumidityMeasurements metric force s d vcc).txOccurred = true →
        ((sendTempHumidityMeasurements metric force s d vcc).sentHum =
            some (truncF (some q)) ∧
         (sendTempHumidityMeasurements metric force s d vcc).state.lastHumidity =
            truncF (some q))) ∧
    (∃ (s : NodeState) (d : si7021_env),
        (sendTempHumidityMeasurements true false s d 3000).txOccurred = true ∧
        (raNext s d).getAverage ≠ FloatV.ofInt (truncF d.humidityPercent)) := by
  constructor
  · intro metric force s d vcc q hq htx
    rw [← hq]
    exact sendTH_humStored metric force s d vcc htx
  · exact ⟨midState, fracHumData, by decide, by decide⟩

/-- Witness for `C10_humidity_stored`: a transmitting cycle with raw humidity
sample 60.4 sends and stores the truncation 60 while the compared average is
55.2. -/
theorem C10_witness :
    (sendTempHumidityMeasurements true false midState fracHumData 3000).sentHum =
      some (truncF (some (mkRat 302 5))) ∧
    (sendTempHumidityMeasurements true false midState fracHumData 3000).state.lastHumidity =
      truncF (some (mkRat 302 5)) :=
  C10_humidity_stored.1 true false midState fracHumData 3000 (mkRat 302 5) rfl (by decide)
